import Mathlib

/-
Shallow embedding of src/config_gui.py (class ConfigGUI), the serial-terminal
configuration GUI.  The tkinter widget tree, fonts and window lifecycle are out
of scope; what is embedded is the connection lifecycle, the command dispatcher
and the background reader loop, exactly as a trace of pure state transitions:

  * AppState mirrors the mutable fields of ConfigGUI that the core logic reads
    and writes: com_port, baud_rate, serial_connection (None / open handle,
    modelled as a Bool), is_connected.
  * Each operation returns the new AppState together with a list of Effect
    values recording, in program order, the externally visible actions it
    performed: opening / closing the transport, starting the reader thread,
    writing bytes, inserting a log line into the terminal, or showing a
    message box.
  * LogEntry models one line appended by log_message: the display tag passed
    as the message prefix argument, and the message text.  The wall-clock
    timestamp that log_message prepends is outside the embedding.
  * The pyserial transport is external.  Its readline() used by receive_data
    is modelled at the byte level: arriving chunks accumulate in a buffer and
    each call returns one line up to and including the newline byte 0x0A,
    with a terminator-less tail retained until more bytes arrive (the
    spec Transport boundary: a bounded-timeout read of available bytes,
    reassembled at line terminators).  A read raising SerialException is the
    event ReadEvent.err.
  * Python str.strip / str.rstrip and bytes.decode with the utf-8 codec and
    the ignore error handler are reimplemented below over lists of
    characters / byte values.
-/

/-- Whitespace as recognised by Python str.strip with no argument, restricted
to the ASCII range: space, tab, newline, carriage return, vertical tab and
form feed. -/
def isPySpace (c : Char) : Bool :=
  c = ' ' || c = '\t' || c = '\n' || c = '\r' || c = '\x0b' || c = '\x0c'

/-- Characters of a string with trailing Python whitespace removed. -/
def pyStripRightList (l : List Char) : List Char :=
  (l.reverse.dropWhile isPySpace).reverse

/-- Characters of a string with leading and trailing Python whitespace
removed. -/
def pyStripList (l : List Char) : List Char :=
  pyStripRightList (l.dropWhile isPySpace)

/-- Python str.strip() on a string. -/
def pyStripStr (s : String) : String :=
  String.mk (pyStripList s.data)

/-- Python str.rstrip() on a string. -/
def pyRStripStr (s : String) : String :=
  String.mk (pyStripRightList s.data)

/-- UTF-8 continuation byte test: the byte is in the range 0x80 to 0xBF. -/
def isCont (b : Nat) : Bool :=
  b / 0x40 == 2

/-- Decode one UTF-8 sequence whose lead byte is b and whose following bytes
start rest: well-formed sequences (excluding overlong forms, surrogates and
code points above 0x10FFFF) yield their code point and the bytes after the
sequence; otherwise none is yielded and decoding resumes at the first
offending byte, as the Python ignore error handler does. -/
def decodeOne (b : Nat) (rest : List Nat) : Option Char × List Nat :=
  if b < 0x80 then (some (Char.ofNat b), rest)
  else if b < 0xC2 then (none, rest)
  else if b < 0xE0 then
    match rest with
    | [] => (none, [])
    | b1 :: rest1 =>
      if isCont b1 then
        (some (Char.ofNat ((b - 0xC0) * 0x40 + (b1 - 0x80))), rest1)
      else (none, rest)
  else if b < 0xF0 then
    match rest with
    | [] => (none, [])
    | b1 :: rest1 =>
      if isCont b1 && !(b == 0xE0 && decide (b1 < 0xA0))
          && !(b == 0xED && decide (0xA0 ≤ b1)) then
        match rest1 with
        | [] => (none, [])
        | b2 :: rest2 =>
          if isCont b2 then
            (some (Char.ofNat ((b - 0xE0) * 0x1000 + (b1 - 0x80) * 0x40 + (b2 - 0x80))),
             rest2)
          else (none, rest1)
      else (none, rest)
  else if b < 0xF5 then
    match rest with
    | [] => (none, [])
    | b1 :: rest1 =>
      if isCont b1 && !(b == 0xF0 && decide (b1 < 0x90))
          && !(b == 0xF4 && decide (0x90 ≤ b1)) then
        match rest1 with
        | [] => (none, [])
        | b2 :: rest2 =>
          if isCont b2 then
            match rest2 with
            | [] => (none, [])
            | b3 :: rest3 =>
              if isCont b3 then
                (some (Char.ofNat ((b - 0xF0) * 0x40000 + (b1 - 0x80) * 0x1000
                    + (b2 - 0x80) * 0x40 + (b3 - 0x80))),
                 rest3)
              else (none, rest2)
          else (none, rest1)
        else (none, rest)
  else (none, rest)

/-- Bytes remaining after decodeOne never exceed the bytes it was given. -/
theorem decodeOne_length (b : Nat) (rest : List Nat) :
    (decodeOne b rest).2.length ≤ rest.length := by
  unfold decodeOne
  repeat' split
  all_goals simp_all
  all_goals omega

/-- UTF-8 decoding with the ignore error handler, driven by fuel: each
position either begins a well-formed sequence, which is decoded, or is
skipped.  Every step consumes at least one byte (decodeOne_length), so fuel
equal to the byte count never runs out. -/
def utf8DecodeIgnoreGo : Nat → List Nat → List Char
  | 0, _ => []
  | _, [] => []
  | fuel + 1, b :: rest =>
    match decodeOne b rest with
    | (some c, rem) => c :: utf8DecodeIgnoreGo fuel rem
    | (none, rem) => utf8DecodeIgnoreGo fuel rem

/-- UTF-8 decoding of a byte list with the Python ignore error handler. -/
def utf8DecodeIgnoreAux (l : List Nat) : List Char :=
  utf8DecodeIgnoreGo l.length l

/-- Python bytes.decode with utf-8 and the ignore error handler, as a total
function into strings. -/
def utf8DecodeIgnore (bs : List Nat) : String :=
  String.mk (utf8DecodeIgnoreAux bs)

/-- UTF-8 encoding of one character. -/
def encodeChar (c : Char) : List Nat :=
  let n := c.toNat
  if n < 0x80 then [n]
  else if n < 0x800 then [0xC0 + n / 0x40, 0x80 + n % 0x40]
  else if n < 0x10000 then
    [0xE0 + n / 0x1000, 0x80 + (n / 0x40) % 0x40, 0x80 + n % 0x40]
  else
    [0xF0 + n / 0x40000, 0x80 + (n / 0x1000) % 0x40,
     0x80 + (n / 0x40) % 0x40, 0x80 + n % 0x40]

/-- Python str.encode with the utf-8 codec. -/
def encodeUtf8 (s : String) : List Nat :=
  (s.data.map encodeChar).flatten

/-- A byte list is well-formed UTF-8 exactly when re-encoding its
ignore-decoding reproduces it. -/
def utf8Valid (bs : List Nat) : Bool :=
  encodeUtf8 (utf8DecodeIgnore bs) == bs

/-- One line appended to the terminal by ConfigGUI.log_message: the display
tag passed as the message prefix argument, and the message text.  The
timestamp that log_message prepends is wall-clock time, outside the
embedding. -/
structure LogEntry where
  pfx : String
  text : String
deriving DecidableEq

/-- ConfigGUI.log_message, which formats and appends one terminal line; here
it constructs the LogEntry for that line. -/
def log_message (message : String) (pfx : String) : LogEntry :=
  { pfx := pfx, text := message }

/-- Message boxes shown by the GUI: the connect-failure error, the
not-connected warning in send_command, and the send-failure error. -/
inductive Dialog where
  | connectionError
  | notConnectedWarning
  | sendError
deriving DecidableEq

/-- Externally visible actions, recorded in program order. -/
inductive Effect where
  | openTransport (port : String) (baud : Nat)
  | closeTransport
  | startReaderThread
  | write (bytes : List Nat)
  | log (e : LogEntry)
  | dialog (d : Dialog)
deriving DecidableEq

/-- The mutable fields of ConfigGUI that the connection logic reads and
writes.  serial_connection is True when a transport handle is held (the
Python field is not None). -/
structure AppState where
  com_port : String
  baud_rate : Nat
  serial_connection : Bool
  is_connected : Bool
deriving DecidableEq

/-- The log entries among a list of effects, in order. -/
def logEntries : List Effect → List LogEntry
  | [] => []
  | Effect.log e :: rest => e :: logEntries rest
  | _ :: rest => logEntries rest

/-- The byte lists written to the transport among a list of effects. -/
def writeEffects : List Effect → List (List Nat)
  | [] => []
  | Effect.write bs :: rest => bs :: writeEffects rest
  | _ :: rest => writeEffects rest

/-- Number of transport opens among a list of effects. -/
def countOpens : List Effect → Nat
  | [] => 0
  | Effect.openTransport _ _ :: rest => countOpens rest + 1
  | _ :: rest => countOpens rest

/-- Number of reader threads started among a list of effects. -/
def countReaderStarts : List Effect → Nat
  | [] => 0
  | Effect.startReaderThread :: rest => countReaderStarts rest + 1
  | _ :: rest => countReaderStarts rest

/-- ConfigGUI.connect: attempt to open serial.Serial on the selected port and
baud rate.  openOk is whether that constructor succeeds.  On success the
handle is stored, is_connected is set, the receive thread is started and a
lifecycle line is logged; on SerialException an error dialog is shown and no
state changes. -/
def connect (st : AppState) (openOk : Bool) : AppState × List Effect :=
  if openOk then
    ({ st with serial_connection := true, is_connected := true },
     [Effect.openTransport st.com_port st.baud_rate,
      Effect.startReaderThread,
      Effect.log (log_message
        ("Connected to " ++ st.com_port ++ " at " ++ toString st.baud_rate ++ " baud")
        "[INFO] ")])
  else
    (st, [Effect.dialog Dialog.connectionError])

/-- ConfigGUI.disconnect: close the transport if a handle is held, clear
is_connected, and log the Disconnected line.  The log call is unconditional
in the source. -/
def disconnect (st : AppState) : AppState × List Effect :=
  ({ st with serial_connection := false, is_connected := false },
   (if st.serial_connection then [Effect.closeTransport] else [])
     ++ [Effect.log (log_message "Disconnected" "[INFO] ")])

/-- ConfigGUI.toggle_connection, the handler of the Connect button: connect
when not connected, otherwise disconnect. -/
def toggle_connection (st : AppState) (openOk : Bool) : AppState × List Effect :=
  if !st.is_connected then connect st openOk else disconnect st

/-- ConfigGUI.send_command with input text in the entry field.  writeOk is
whether serial_connection.write succeeds.  Not connected: warning dialog,
nothing else.  Blank after strip: nothing at all.  Otherwise one newline is
appended when missing, the UTF-8 bytes are written, and on success the echo
line is logged with the prefix argument set to the greater-than tag; on
SerialException an error dialog is shown and no state changes. -/
def send_command (st : AppState) (text : String) (writeOk : Bool) :
    AppState × List Effect :=
  if !st.is_connected then
    (st, [Effect.dialog Dialog.notConnectedWarning])
  else
    let command := pyStripStr text
    if command = "" then (st, [])
    else
      let command2 := if command.data.getLast? = some '\n' then command
        else command ++ "\n"
      if writeOk then
        (st, [Effect.write (encodeUtf8 command2),
              Effect.log (log_message ("Sent: " ++ pyRStripStr command2) "> ")])
      else
        (st, [Effect.dialog Dialog.sendError])

/-- One event observed by a reader-loop iteration: either a chunk of bytes
arriving from the device, or a read raising SerialException. -/
inductive ReadEvent where
  | chunk (bs : List Nat)
  | err
deriving DecidableEq

/-- Extract the first complete line, up to and including the newline byte
0x0A, from a byte buffer; none when the buffer holds no newline. -/
def takeLine : List Nat → Option (List Nat × List Nat)
  | [] => none
  | b :: rest =>
    if b = 10 then some ([10], rest)
    else
      match takeLine rest with
      | some (line, rem) => some (b :: line, rem)
      | none => none

/-- Repeatedly extract complete lines from the buffer, decode each with the
utf-8 ignore handler, and emit those that are non-blank after strip, with
their trailing whitespace removed and an empty prefix — the per-line handling
of receive_data.  Returns the remaining terminator-less buffer and the
entries emitted, oldest first.  Fuel bounds the recursion; each extracted
line consumes at least one byte, so buffer length is sufficient fuel. -/
def drainLines : Nat → List Nat → List Nat × List LogEntry
  | 0, buf => (buf, [])
  | fuel + 1, buf =>
    match takeLine buf with
    | none => (buf, [])
    | some (line, rest) =>
      let data := utf8DecodeIgnore line
      let out := drainLines fuel rest
      if pyStripStr data = "" then out
      else (out.1, log_message (pyRStripStr data) "" :: out.2)

/-- ConfigGUI.receive_data, run over a schedule of read events starting from
the given transport buffer.  Each arriving chunk is appended to the buffer
and every complete line is extracted and emitted before the next read; a
SerialException breaks the loop at once, emitting nothing and changing no
state.  Returns the final buffer, whether the loop was stopped by an error,
and the emitted entries in order. -/
def receive_data : List Nat → List ReadEvent → List Nat × Bool × List LogEntry
  | buf, [] => (buf, false, [])
  | buf, ReadEvent.err :: _ => (buf, true, [])
  | buf, ReadEvent.chunk bs :: evs =>
    let buf2 := buf ++ bs
    let step := drainLines buf2.length buf2
    let rest := receive_data step.1 evs
    (rest.1, rest.2.1, step.2 ++ rest.2.2)

/-- The receive thread seen from the application state: the loop runs only
while is_connected and serial_connection hold; it reads those fields but
never assigns them, so the state it returns is the state it was given, along
with the device lines it emitted. -/
def receive_data_run (st : AppState) (events : List ReadEvent) :
    AppState × List LogEntry :=
  if st.is_connected && st.serial_connection then
    (st, (receive_data [] events).2.2)
  else (st, [])

/-- The initial application state: defaults COM9 and 115200 baud, no handle,
not connected. -/
def initialState : AppState :=
  { com_port := "COM9", baud_rate := 115200,
    serial_connection := false, is_connected := false }

/-- A state reached after a successful connect on the defaults. -/
def connectedState : AppState :=
  { com_port := "COM9", baud_rate := 115200,
    serial_connection := true, is_connected := true }

/-- The disconnected state used by the next connect attempt after selecting
the given port and baud rate. -/
def mkInitial (port : String) (baud : Nat) : AppState :=
  { com_port := port, baud_rate := baud,
    serial_connection := false, is_connected := false }

/-- Claim C1, counterexample: on the read schedule AB, then C and newline,
then DE newline FG newline, the reader emits the lines ABC, DE and FG — not
one entry ABCDE followed by one entry FG as the claim states.  The newline
arriving after C closes the line ABC, so ABCDE is never produced. -/
theorem C1_counterexample :
    (receive_data [] [ReadEvent.chunk [65, 66], ReadEvent.chunk [67, 10],
        ReadEvent.chunk [68, 69, 10, 70, 71, 10]]).2.2.map LogEntry.text
      ≠ ["ABCDE", "FG"] := by decide

/-- Claim C1 (amended): on the read schedule AB, then C and newline, then DE
newline FG newline, the reader accumulates bytes across reads, extracts a
line at every terminator, and emits exactly the three entries ABC, DE and FG
with empty prefix, leaving an empty buffer; a terminator-less chunk FG alone
is held in the buffer, emitting nothing, pending the next read. -/
theorem C1_amended_reader_lines :
    receive_data [] [ReadEvent.chunk [65, 66], ReadEvent.chunk [67, 10],
        ReadEvent.chunk [68, 69, 10, 70, 71, 10]]
      = ([], false,
         [{ pfx := "", text := "ABC" }, { pfx := "", text := "DE" },
          { pfx := "", text := "FG" }]) ∧
    receive_data [] [ReadEvent.chunk [70, 71]] = ([70, 71], false, []) := by
  decide

/-- Claim C2, counterexample: after a read error in the reader loop of a
connected session, the connection is still marked connected and no lifecycle
entry at all was emitted — the loop breaks silently, contradicting the
claimed transition to Disconnected with one failure LogEntry. -/
theorem C2_counterexample :
    (receive_data_run connectedState [ReadEvent.err]).1.is_connected = true ∧
    (receive_data_run connectedState [ReadEvent.err]).2 = [] := by decide

/-- Claim C2 (amended): a transport read error stops the reader loop at
once, but the loop changes no connection state — is_connected keeps whatever
value it had, so no transition to Disconnected happens — and it emits no
LogEntry for the failure. -/
theorem C2_amended_read_error_silent (st : AppState) (evs : List ReadEvent) :
    receive_data_run st (ReadEvent.err :: evs) = (st, []) ∧
    (receive_data [] (ReadEvent.err :: evs)).2.1 = true := by
  constructor
  · unfold receive_data_run
    split <;> rfl
  · rfl

/-- Claim C3, counterexample: Send of ping while connected logs the entry
with text Sent: ping, not the original text ping — the echo line is prefixed
with the word Sent inside the text field. -/
theorem C3_counterexample :
    logEntries (send_command connectedState "ping" true).2
      = [{ pfx := "> ", text := "Sent: ping" }] ∧
    ({ pfx := "> ", text := "Sent: ping" } : LogEntry)
      ≠ { pfx := "> ", text := "ping" } := by decide

/-- Claim C3 (amended): Send of ping while connected writes exactly the five
bytes of ping followed by one appended newline, changes no state, and emits
exactly one LogEntry whose prefix is the greater-than tag and whose text is
Sent: ping. -/
theorem C3_amended_send_ping (st : AppState) (h : st.is_connected = true) :
    send_command st "ping" true
      = (st, [Effect.write [112, 105, 110, 103, 10],
              Effect.log { pfx := "> ", text := "Sent: ping" }]) := by
  unfold send_command
  rw [h]
  rfl

/-- Claim C3 witness: the amended statement at the concrete connected
state. -/
theorem C3_amended_send_ping_witness :
    send_command connectedState "ping" true
      = (connectedState, [Effect.write [112, 105, 110, 103, 10],
              Effect.log { pfx := "> ", text := "Sent: ping" }]) :=
  C3_amended_send_ping connectedState rfl

/-- Claim C4, counterexample: pressing Connect again while connected does
change state — it disconnects: is_connected becomes false and the transport
is closed with a Disconnected log line.  No AlreadyConnected error exists
and no state is preserved, contradicting the claim. -/
theorem C4_counterexample :
    (toggle_connection connectedState true).1.is_connected = false ∧
    (toggle_connection connectedState true).2
      = [Effect.closeTransport,
         Effect.log { pfx := "[INFO] ", text := "Disconnected" }] := by decide

/-- Claim C4 (amended): a second Connect request while connected is routed
by the toggle to disconnect — it is never rejected with an AlreadyConnected
error; it opens no second transport and starts no second reader loop,
because connect is only reachable when is_connected is false. -/
theorem C4_amended_second_connect_is_disconnect (st : AppState) (openOk : Bool)
    (h : st.is_connected = true) :
    toggle_connection st openOk = disconnect st ∧
    countOpens (toggle_connection st openOk).2 = 0 ∧
    countReaderStarts (toggle_connection st openOk).2 = 0 := by
  have h1 : toggle_connection st openOk = disconnect st := by
    unfold toggle_connection
    rw [h]
    rfl
  refine ⟨h1, ?_, ?_⟩ <;> rw [h1] <;> unfold disconnect <;>
    cases hsc : st.serial_connection <;> rfl

/-- Claim C4 witness: the amended statement at the concrete connected
state. -/
theorem C4_amended_second_connect_is_disconnect_witness :
    toggle_connection connectedState true = disconnect connectedState ∧
    countOpens (toggle_connection connectedState true).2 = 0 ∧
    countReaderStarts (toggle_connection connectedState true).2 = 0 :=
  C4_amended_second_connect_is_disconnect connectedState true rfl

/-- Claim C5: Send of any text while disconnected shows only the
not-connected warning, writes nothing to the transport, emits no LogEntry
and leaves the state unchanged. -/
theorem C5_send_disconnected (st : AppState) (text : String) (writeOk : Bool)
    (h : st.is_connected = false) :
    send_command st text writeOk
      = (st, [Effect.dialog Dialog.notConnectedWarning]) ∧
    writeEffects (send_command st text writeOk).2 = [] ∧
    logEntries (send_command st text writeOk).2 = [] := by
  have h1 : send_command st text writeOk
      = (st, [Effect.dialog Dialog.notConnectedWarning]) := by
    unfold send_command
    rw [h]
    rfl
  refine ⟨h1, ?_, ?_⟩ <;> rw [h1] <;> rfl

/-- Claim C5 witness: Send of hello in the initial disconnected state. -/
theorem C5_send_disconnected_witness :
    send_command initialState "hello" true
      = (initialState, [Effect.dialog Dialog.notConnectedWarning]) ∧
    writeEffects (send_command initialState "hello" true).2 = [] ∧
    logEntries (send_command initialState "hello" true).2 = [] :=
  C5_send_disconnected initialState "hello" true rfl

/-- Claim C6: Send of an input that strips to the empty string while
connected is a complete no-op — no write, no LogEntry, no dialog, no state
change. -/
theorem C6_send_blank_noop (st : AppState) (text : String) (writeOk : Bool)
    (h1 : st.is_connected = true) (h2 : pyStripStr text = "") :
    send_command st text writeOk = (st, []) := by
  unfold send_command
  rw [h1, h2]
  rfl

/-- Claim C6 witness: Send of three spaces in the connected state. -/
theorem C6_send_blank_noop_witness :
    send_command connectedState "   " true = (connectedState, []) :=
  C6_send_blank_noop connectedState "   " true rfl (by decide)

/-- Claim C7: when the transport write fails, Send surfaces only the send
error dialog, alters no state, and the connection stays connected — no
disconnect happens and no LogEntry is emitted. -/
theorem C7_write_failed_state_kept (st : AppState) (text : String)
    (h1 : st.is_connected = true) (h2 : pyStripStr text ≠ "") :
    send_command st text false = (st, [Effect.dialog Dialog.sendError]) ∧
    (send_command st text false).1.is_connected = true := by
  have h3 : send_command st text false
      = (st, [Effect.dialog Dialog.sendError]) := by
    unfold send_command
    rw [h1]
    simp only [Bool.not_true, Bool.false_eq_true, if_false, if_neg h2]
  refine ⟨h3, ?_⟩
  rw [h3]
  exact h1

/-- Claim C7 witness: a failing write of ping in the connected state. -/
theorem C7_write_failed_state_kept_witness :
    send_command connectedState "ping" false
      = (connectedState, [Effect.dialog Dialog.sendError]) ∧
    (send_command connectedState "ping" false).1.is_connected = true :=
  C7_write_failed_state_kept connectedState "ping" (by decide) (by decide)

/-- Claim C8, counterexample: disconnect in the already-disconnected initial
state leaves the state unchanged and closes nothing, but it does emit the
Disconnected lifecycle LogEntry — the log call is unconditional, so the
operation is not the silent no-op the claim states. -/
theorem C8_counterexample :
    disconnect initialState
      = (initialState,
         [Effect.log { pfx := "[INFO] ", text := "Disconnected" }]) ∧
    logEntries (disconnect initialState).2 ≠ ([] : List LogEntry) := by decide

/-- Claim C8 (amended): disconnect while already disconnected changes no
state and performs no transport operation, but it is not entirely a no-op:
it emits one Disconnected lifecycle LogEntry each time. -/
theorem C8_amended_disconnect_logs_again (st : AppState)
    (h1 : st.is_connected = false) (h2 : st.serial_connection = false) :
    disconnect st
      = (st, [Effect.log { pfx := "[INFO] ", text := "Disconnected" }]) := by
  cases st with
  | mk cp br sc ic =>
    change ic = false at h1
    change sc = false at h2
    subst h1
    subst h2
    rfl

/-- Claim C8 witness: the amended statement at the initial state. -/
theorem C8_amended_disconnect_logs_again_witness :
    disconnect initialState
      = (initialState,
         [Effect.log { pfx := "[INFO] ", text := "Disconnected" }]) :=
  C8_amended_disconnect_logs_again initialState rfl rfl

/-- Claim C9: for every port and baud rate, a successful connect followed
immediately by disconnect ends disconnected with no transport handle, and
the two operations together emit exactly two lifecycle LogEntries: the
connect notice naming the port and baud rate, then the disconnect
notice. -/
theorem C9_connect_then_disconnect (port : String) (baud : Nat) :
    (disconnect (connect (mkInitial port baud) true).1).1.is_connected = false ∧
    (disconnect (connect (mkInitial port baud) true).1).1.serial_connection = false ∧
    logEntries ((connect (mkInitial port baud) true).2
        ++ (disconnect (connect (mkInitial port baud) true).1).2)
      = [{ pfx := "[INFO] ",
           text := "Connected to " ++ port ++ " at " ++ toString baud ++ " baud" },
         { pfx := "[INFO] ", text := "Disconnected" }] := by
  exact ⟨rfl, rfl, rfl⟩

/-- Claim C10: decoding in the reader loop never raises — a run fed only
data chunks, with arbitrary bytes and starting buffer, never stops the loop,
because the utf-8 ignore decoder is total; a malformed byte such as 0xFF is
silently dropped, as decoding 0xFF 0x41 to the single character A shows. -/
theorem C10_decode_never_stops_loop :
    (∀ (buf : List Nat) (chunks : List (List Nat)),
        (receive_data buf (chunks.map ReadEvent.chunk)).2.1 = false) ∧
    utf8DecodeIgnore [255, 65] = "A" ∧
    utf8Valid [255, 65] = false := by
  refine ⟨?_, by decide, by decide⟩
  intro buf chunks
  induction chunks generalizing buf with
  | nil => rfl
  | cons c cs ih =>
    show (receive_data
        ((drainLines (buf ++ c).length (buf ++ c)).1)
        (cs.map ReadEvent.chunk)).2.1 = false
    exact ih _
